import Mathlib

/-!
# Verification of the benchmark orchestration engine

Shallow embedding of the core of the Benchmarking-AI-Factories repository:
the executor backends (`src/Core/executors/*.py`), the benchmark manager's
recipe validation and polling loop (`src/Interface/benchmark_manager.py`),
the workload worker loops (`src/Core/workloads/*.py`), the file logger
(`src/Core/loggers/file_logger.py`) and the service lifecycle
(`src/Core/service.py`).

Python machinery is embedded as follows: fallible calls return
`Except`, a `subprocess.Popen` handle is an OS-world process id whose
`poll()` result lives in the world state, wall-clock time is an abstract
trace indexed by loop iteration, and thread scheduling is sequentialised
(each loop body runs atomically, which is faithful for the single-threaded
manager and for the per-worker loops whose shared-state interactions are
not part of any property below).
-/

/-! ## Status vocabularies (spec §3 "ExecutorStatus") -/

/-- The normalized status enumeration named by the specification. -/
def normalizedStatuses : List String :=
  ["not_started", "pending", "running", "finished", "failed", "stopped", "unknown"]

/-- The terminal statuses named by the specification. -/
def terminalStatuses : List String := ["finished", "failed", "stopped"]

/-! ## OS process world

A spawned OS process is identified by its index in a growing list; the entry
is `none` while the process is alive (Python `poll()` returns `None`) and
`some code` once it has exited. -/

abbrev Pid := Nat

structure OSWorld where
  nextPid : Nat
  procs : Pid → Option Int   -- `none` = alive, `some code` = exited

/-- The world before anything is spawned.  Unallocated pids (everything at
or above `nextPid`) carry a garbage "exited" entry; the executor
invariants keep them unreachable. -/
def OSWorld.initial : OSWorld :=
  { nextPid := 0, procs := fun _ => some 0 }

/-- `subprocess.Popen(...)`: a fresh, running process. -/
def OSWorld.spawn (w : OSWorld) : OSWorld × Pid :=
  ({ nextPid := w.nextPid + 1
     procs := fun q => if q = w.nextPid then none else w.procs q },
   w.nextPid)

/-- `proc.poll()`: `none` while running, `some code` after exit. -/
def OSWorld.poll (w : OSWorld) (p : Pid) : Option Int :=
  w.procs p

/-- A process is alive while `poll()` is `None`. -/
def OSWorld.alive (w : OSWorld) (p : Pid) : Bool :=
  (w.poll p).isNone

/-- `SIGTERM` / `killpg`: an alive process exits with code `-15`; on a
dead process the signal raises and Python swallows the exception, leaving
the world unchanged. -/
def OSWorld.kill (w : OSWorld) (p : Pid) : OSWorld :=
  match w.procs p with
  | none => { w with procs := fun q => if q = p then some (-15) else w.procs q }
  | some _ => w

/-! ## ProcessExecutor (src/Core/executors/process_executor.py)

State: `self.process` (an `Option Pid`); the `spawned` field is ghost
history recording every process this executor instance ever launched, used
to state the single-live-unit property. -/

structure ProcessExecutorState where
  process : Option Pid
  spawned : List Pid
deriving DecidableEq, Repr

/-- A freshly constructed `ProcessExecutor` (`__init__`: `self.process = None`). -/
def ProcessExecutor.init : ProcessExecutorState :=
  { process := none, spawned := [] }

/-- `ProcessExecutor.stop` (lines 91-108): `if not self.process: return`;
otherwise kill the process group, wait, and set `self.process = None`. -/
def ProcessExecutor.stop (w : OSWorld) (s : ProcessExecutorState) :
    OSWorld × ProcessExecutorState :=
  match s.process with
  | none => (w, s)
  | some p => (w.kill p, { s with process := none })

/-- `ProcessExecutor.run` (lines 42-58): `if self.process and
self.process.poll() is None: self.stop()`, then spawn the new command. -/
def ProcessExecutor.run (w : OSWorld) (s : ProcessExecutorState) :
    OSWorld × ProcessExecutorState :=
  let ws :=
    match s.process with
    | some p => if w.alive p then ProcessExecutor.stop w s else (w, s)
    | none => (w, s)
  let sp := ws.1.spawn
  (sp.1, { process := some sp.2, spawned := ws.2.spawned ++ [sp.2] })

/-- `ProcessExecutor.status` (lines 80-86): `"not_started"`, `"running"`,
or the interpolated string `f"finished (code={ret})"`. -/
def ProcessExecutor.status (w : OSWorld) (s : ProcessExecutorState) : String :=
  match s.process with
  | none => "not_started"
  | some p =>
    match w.poll p with
    | none => "running"
    | some ret => "finished (code=" ++ toString ret ++ ")"

/-! ## ApptainerExecutor (src/Core/executors/apptainer_executor.py) -/

structure ApptainerExecutorState where
  proc : Option Pid
  spawned : List Pid
deriving DecidableEq, Repr

/-- A freshly constructed `ApptainerExecutor` (`__init__`: `self._proc = None`). -/
def ApptainerExecutor.init : ApptainerExecutorState :=
  { proc := none, spawned := [] }

/-- `ApptainerExecutor.run` (lines 19-42): spawns the `apptainer exec`
command and overwrites `self._proc` — it never inspects or stops a
previously launched process. -/
def ApptainerExecutor.run (w : OSWorld) (s : ApptainerExecutorState) :
    OSWorld × ApptainerExecutorState :=
  let sp := w.spawn
  (sp.1, { proc := some sp.2, spawned := s.spawned ++ [sp.2] })

/-- `ApptainerExecutor.stop` (lines 44-52): terminate the process if it is
alive, then always set `self._proc = None`. -/
def ApptainerExecutor.stop (w : OSWorld) (s : ApptainerExecutorState) :
    OSWorld × ApptainerExecutorState :=
  match s.proc with
  | none => (w, { s with proc := none })
  | some p =>
    if w.alive p then (w.kill p, { s with proc := none })
    else (w, { s with proc := none })

/-- `ApptainerExecutor.status` (lines 54-63): `"no process"`, `"running"`
or `"finished"`. -/
def ApptainerExecutor.status (w : OSWorld) (s : ApptainerExecutorState) : String :=
  match s.proc with
  | none => "no process"
  | some p => if w.alive p then "running" else "finished"

/-! ## SlurmExecutor (src/Core/executors/slurm_executor.py)

The `squeue` query is abstracted as an `Except Unit String`: `.error ()` is
a `CalledProcessError`, `.ok out` the raw stdout of
`squeue -j <id> -h -o %T`. -/

/-- `SlurmExecutor.status` (lines 67-78): `"no job"` with no stored id;
on a query failure the caught `CalledProcessError` yields `"not found"`;
otherwise the stripped scheduler output is passed through verbatim. -/
def SlurmExecutor.status (jobId : Option String) (query : Except Unit String) : String :=
  match jobId with
  | none => "no job"
  | some _ =>
    match query with
    | .error _ => "not found"
    | .ok out => out.trim

/-- `SlurmExecutor.stop` (lines 61-65): cancels and clears the stored job
id; a no-op when no job was ever submitted. -/
def SlurmExecutor.stop (jobId : Option String) : Option String :=
  match jobId with
  | none => none
  | some _ => none

/-! ## WorkloadExecutor (src/Core/executors/workload_executor.py) -/

structure WorkloadExecutorState where
  thread : Option Bool          -- `some alive?` when a worker thread object exists
  wstatus : String              -- `self._status`
deriving DecidableEq, Repr

/-- A freshly constructed `WorkloadExecutor` (`__init__`:
`self._thread = None`, `self._status = "not_started"`). -/
def WorkloadExecutor.init : WorkloadExecutorState :=
  { thread := none, wstatus := "not_started" }

/-- `WorkloadExecutor.status` (lines 52-53): returns `self._status`. -/
def WorkloadExecutor.status (s : WorkloadExecutorState) : String := s.wstatus

/-- `WorkloadExecutor.stop` (lines 55-64): `if not self._thread: return`;
otherwise signal, join, drop the thread, and downgrade a `"running"`
status to `"stopped"`. -/
def WorkloadExecutor.stop (s : WorkloadExecutorState) : WorkloadExecutorState :=
  match s.thread with
  | none => s
  | some _ =>
    { thread := none
      wstatus := if s.wstatus = "running" then "stopped" else s.wstatus }

/-! ## BenchmarkManager polling loop (benchmark_manager.py, lines 572-590)

A client's status query either raises (`.error ()`) or returns an optional
status string.  Time is discrete: the loop is entered at time `0` and each
`time.sleep(poll_interval)` advances the clock by `poll_interval`; the
status checks themselves are instantaneous.  `sched t` gives the list of
per-client query results at time `t`.  The result is the exit time paired
with `true` when the loop broke early on `all_done`. -/

/-- The literal tuple in `run_benchmark`:
`st in ("running", "RUNNING", "PENDING", "UNKNOWN", None)`. -/
def keepAliveStatuses : List (Option String) :=
  [some "running", some "RUNNING", some "PENDING", some "UNKNOWN", none]

/-- One client keeps the loop alive when its query raises or returns a
member of `keepAliveStatuses`. -/
def clientKeepsAlive : Except Unit (Option String) → Bool
  | .error _ => true
  | .ok st => keepAliveStatuses.contains st

/-- `all_done` after the inner `for` loop of one polling iteration. -/
def allClientsDone (rs : List (Except Unit (Option String))) : Bool :=
  rs.all fun r => !clientKeepsAlive r

/-- The `while time.time() - start_time < duration` polling loop.  `fuel`
bounds the recursion; every theorem below supplies enough fuel for the
loop to reach its real exit. -/
def pollLoop (duration pollInterval : Nat)
    (sched : Nat → List (Except Unit (Option String))) :
    Nat → Nat → Nat × Bool
  | 0, t => (t, false)
  | fuel + 1, t =>
    if t < duration then
      if allClientsDone (sched t) then (t, true)
      else pollLoop duration pollInterval sched fuel (t + pollInterval)
    else (t, false)

example : pollLoop 600 5 (fun _ => [.ok (some "not found")]) 3 0 = (0, true) := by decide
example : pollLoop 10 5 (fun _ => [.ok (some "running")]) 3 0 = (10, false) := by decide

/-! ## Workload worker loops (src/Core/workloads)

Each worker loop is a sequential state machine over abstract traces:
`elapsedAt n` is the wall-clock `elapsed` observed at the top of iteration
`n`, `stopAt n` whether `stop_event.is_set()` holds there, and the request
outcome trace tells whether the `n`-th network operation succeeds.  The
exit reason records which stop condition fired. -/

inductive WorkerExit where
  | durationReached
  | targetReached
  | stopSignal
  | circuitBreaker
  | outOfFuel
deriving DecidableEq, Repr

/-- The configuration fields of `worker_task` in `vllm_inference.py` that
participate in loop control: `duration_sec`, the per-thread
`target_requests` (`requests // concurrency`), and
`max_consecutive_errors`. -/
structure VllmWorkerConfig where
  duration_sec : Nat
  target_requests : Nat
  max_consecutive_errors : Nat
deriving DecidableEq, Repr

structure VllmWorkerState where
  i : Nat
  consecutive_errors : Nat
deriving DecidableEq, Repr

/-- `worker_task` of `vllm_inference.py` (lines 146-281).  Stop-condition
order, checked at the top of every iteration: wall-clock duration (only
when `duration_sec > 0`), `elif` per-thread request target (only when
`duration_sec == 0` and the target is positive), the cooperative stop
event, then the circuit breaker `consecutive_errors >= max_consecutive_errors`.
A successful request (`HTTP 200`, given by `outcome`) resets
`consecutive_errors` to 0; every failure branch increments it. -/
def vllmWorkerLoop (cfg : VllmWorkerConfig) (elapsedAt : Nat → Nat)
    (stopAt : Nat → Bool) (outcome : Nat → Bool) :
    Nat → VllmWorkerState → VllmWorkerState × WorkerExit
  | 0, s => (s, .outOfFuel)
  | fuel + 1, s =>
    if 0 < cfg.duration_sec ∧ cfg.duration_sec ≤ elapsedAt s.i then
      (s, .durationReached)
    else if cfg.duration_sec = 0 ∧ 0 < cfg.target_requests ∧ cfg.target_requests ≤ s.i then
      (s, .targetReached)
    else if stopAt s.i then
      (s, .stopSignal)
    else if cfg.max_consecutive_errors ≤ s.consecutive_errors then
      (s, .circuitBreaker)
    else
      vllmWorkerLoop cfg elapsedAt stopAt outcome fuel
        { i := s.i + 1
          consecutive_errors := if outcome s.i then 0 else s.consecutive_errors + 1 }

/-- The loop-control configuration of `worker_task` in `s3_upload.py`:
`duration_sec` and `objects_per_thread`.  The workload reads no
`max_consecutive_errors` key at all. -/
structure S3WorkerConfig where
  duration_sec : Nat
  objects_per_thread : Nat
deriving DecidableEq, Repr

structure S3WorkerState where
  i : Nat
  uploadedObjects : Nat
deriving DecidableEq, Repr

/-- `worker_task` of `s3_upload.py` (lines 48-159).  Stop conditions at the
top of every iteration: wall-clock duration (only when `duration_sec > 0`),
`elif i >= objects_per_thread`, then the stop event.  A failed
`put_object` is swallowed (`except Exception: pass`) and affects neither
the loop control nor any error counter; a successful one records the
object. -/
def s3WorkerLoop (cfg : S3WorkerConfig) (elapsedAt : Nat → Nat)
    (stopAt : Nat → Bool) (uploadOk : Nat → Bool) :
    Nat → S3WorkerState → S3WorkerState × WorkerExit
  | 0, s => (s, .outOfFuel)
  | fuel + 1, s =>
    if 0 < cfg.duration_sec ∧ cfg.duration_sec ≤ elapsedAt s.i then
      (s, .durationReached)
    else if cfg.duration_sec = 0 ∧ cfg.objects_per_thread ≤ s.i then
      (s, .targetReached)
    else if stopAt s.i then
      (s, .stopSignal)
    else
      s3WorkerLoop cfg elapsedAt stopAt uploadOk fuel
        { i := s.i + 1
          uploadedObjects :=
            if uploadOk s.i then s.uploadedObjects + 1 else s.uploadedObjects }

example :
    vllmWorkerLoop ⟨0, 0, 2⟩ (fun _ => 0) (fun _ => false) (fun _ => false) 5 ⟨0, 0⟩
      = (⟨2, 2⟩, .circuitBreaker) := by decide

example :
    s3WorkerLoop ⟨0, 3⟩ (fun _ => 0) (fun _ => false) (fun _ => false) 5 ⟨0, 0⟩
      = (⟨3, 0⟩, .targetReached) := by decide

/-! ## Final statistics (calc_stats_metrics)

Latency values are embedded as rationals.  Python's `int(n * 0.95)` on the
list length `n` equals the exact `⌊19 * n / 20⌋` for every length a latency
list can reach (IEEE-754 double rounding cannot move `n * 0.95` across an
integer boundary for `n` below `2 ^ 49`), so the index is embedded as Nat
division.  `statistics.stdev` (an irrational square root, reported only in
log text) is not modelled; the embedded results carry the mean and the
percentile values.  Python's ascending stable `list.sort()` is embedded as
`List.insertionSort (· ≤ ·)` (value-level identical to any sort by `≤`,
and kernel-evaluable). -/

/-- `calc_stats_metrics` of `s3_upload.py` (lines 234-246), restricted to
`(avg, p95)`: empty input yields zeros, otherwise the list is sorted
ascending and `p95 = sorted[min(int(n * 0.95), n - 1)]`. -/
def s3CalcStats (latencies : List ℚ) : ℚ × ℚ :=
  if latencies = [] then (0, 0)
  else
    let avg := latencies.sum / latencies.length
    let sorted := latencies.insertionSort (· ≤ ·)
    let n := sorted.length
    let idx_p95 := 19 * n / 20
    (avg, sorted.getD (min idx_p95 (n - 1)) 0)

/-- `calc_stats_metrics` of `vllm_inference.py` (lines 410-424), restricted
to `(avg, p95, p99)`: same shape, with `p99 = sorted[min(int(n * 0.99), n - 1)]`. -/
def vllmCalcStats (lats : List ℚ) : ℚ × ℚ × ℚ :=
  if lats = [] then (0, 0, 0)
  else
    let avg := lats.sum / lats.length
    let sorted := lats.insertionSort (· ≤ ·)
    let n := sorted.length
    let idx_p95 := 19 * n / 20
    let idx_p99 := 99 * n / 100
    (avg, sorted.getD (min idx_p95 (n - 1)) 0, sorted.getD (min idx_p99 (n - 1)) 0)

example : s3CalcStats [] = (0, 0) := by decide
example : (s3CalcStats [3, 1, 2]).2 = 3 := by decide

/-! ## FileLogger (src/Core/loggers/file_logger.py) and Service.start -/

/-- The instance attributes assigned by `FileLogger.__init__` (lines
11-17): `log_dir`, `file_name`, `format`, `log_path`.  The abstract base
class `Logger` (`Core/abstracts.py`) declares only abstract methods and
assigns no attributes, so this list is the complete attribute set of a
`FileLogger` object. -/
def fileLoggerAttrs : List String := ["log_dir", "file_name", "format", "log_path"]

/-- The `AttributeError` message Python produces for the lookup. -/
def fileLoggerLockError : String :=
  "AttributeError: \x27FileLogger\x27 object has no attribute \x27_lock\x27"

/-- `FileLogger.log` (lines 19-29): builds the timestamped entry, then
enters `with self._lock:` — an attribute lookup of `_lock` on the
instance, which raises `AttributeError` whenever `_lock` is not among the
instance's attributes. -/
def FileLogger.log (message level : String) : Except String Unit :=
  if fileLoggerAttrs.contains "_lock" then
    .ok ()
  else
    .error fileLoggerLockError

/-- Outcome of one `Service.start` call: whether `executor.run` was
reached, and the exception (if any) that propagated to the caller. -/
structure ServiceStartOutcome where
  executorRan : Bool
  error : Option String
deriving DecidableEq, Repr

/-- `Service.start` (src/Core/service.py, lines 11-21) for a service with
no monitor: log "Starting service <id>" through the attached logger (when
present), invoke `executor.run`, then log "Service <id> started."  An
exception from the first log call propagates before `executor.run` is
invoked. -/
def Service.start (loggerLog : Option (String → String → Except String Unit))
    (sid : String) : ServiceStartOutcome :=
  match loggerLog with
  | none => { executorRan := true, error := none }
  | some lg =>
    match lg ("Starting service " ++ sid) "INFO" with
    | .error e => { executorRan := false, error := some e }
    | .ok _ =>
      match lg ("Service " ++ sid ++ " started.") "INFO" with
      | .error e => { executorRan := true, error := some e }
      | .ok _ => { executorRan := true, error := none }

example : Service.start (some fun m l => FileLogger.log m l) "svc1"
    = { executorRan := false, error := some fileLoggerLockError } := by decide

/-! ## Recipe values

A parsed YAML recipe is a dynamically typed value: strings, integers,
booleans, null, lists and mappings (association lists, first binding
wins, as in a parsed YAML document whose keys are unique). -/

inductive YVal where
  | s : String → YVal
  | i : Int → YVal
  | b : Bool → YVal
  | null : YVal
  | arr : List YVal → YVal
  | dict : List (String × YVal) → YVal
deriving Repr

/-- `d.get(k)` / `k in d` on a mapping; `none` on any non-mapping. -/
def YVal.lookup? : YVal → String → Option YVal
  | .dict ps, k => ps.lookup k
  | _, _ => none

/-- Python `k in d`. -/
def YVal.hasKey (v : YVal) (k : String) : Bool := (v.lookup? k).isSome

/-- Python `d.get(k, default)` (and plain indexing where the key is known
to be present). -/
def YVal.getD (v : YVal) (k : String) (d : YVal) : YVal := (v.lookup? k).getD d

def YVal.isDict : YVal → Bool
  | .dict _ => true
  | _ => false

def YVal.isList : YVal → Bool
  | .arr _ => true
  | _ => false

def YVal.isStr : YVal → Bool
  | .s _ => true
  | _ => false

/-- Python `isinstance(x, int)`; `bool` is a subclass of `int` in Python. -/
def YVal.isInstInt : YVal → Bool
  | .i _ => true
  | .b _ => true
  | _ => false

/-- Python `isinstance(x, bool)`. -/
def YVal.isInstBool : YVal → Bool
  | .b _ => true
  | _ => false

/-- Python truthiness, as used by `not meta.get(key)` and
`not executor["image"]`. -/
def YVal.truthy : YVal → Bool
  | .s v => !v.isEmpty
  | .i n => decide (n ≠ 0)
  | .b v => v
  | .null => false
  | .arr l => !l.isEmpty
  | .dict ps => !ps.isEmpty

/-- Python `x is None`. -/
def YVal.isNull : YVal → Bool
  | .null => true
  | _ => false

/-- Python `==` between recipe id values as used for the duplicate-id
sets.  Ids put in a Python `set` must be hashable, so container-valued
ids (which would raise `TypeError` at `ids.add`) are outside the model;
for scalars this is Python equality, including `True == 1`. -/
def YVal.scalarEq : YVal → YVal → Bool
  | .s x, .s y => x == y
  | .i x, .i y => x == y
  | .b x, .b y => x == y
  | .b x, .i y => (if x then (1 : Int) else 0) == y
  | .i x, .b y => x == (if y then (1 : Int) else 0)
  | .null, .null => true
  | _, _ => false

mutual

/-- Python `str()` of a value, as interpolated by an f-string. -/
def YVal.pystr : YVal → String
  | .s v => v
  | .i n => toString n
  | .b true => "True"
  | .b false => "False"
  | .null => "None"
  | .arr l => "[" ++ YVal.pystrList l ++ "]"
  | .dict ps => "\x7b" ++ YVal.pystrPairs ps ++ "\x7d"

/-- Python `repr()` of a container element. -/
def YVal.pyrepr : YVal → String
  | .s v => "\x27" ++ v ++ "\x27"
  | .i n => toString n
  | .b true => "True"
  | .b false => "False"
  | .null => "None"
  | .arr l => "[" ++ YVal.pystrList l ++ "]"
  | .dict ps => "\x7b" ++ YVal.pystrPairs ps ++ "\x7d"

def YVal.pystrList : List YVal → String
  | [] => ""
  | [x] => YVal.pyrepr x
  | x :: y :: xs => YVal.pyrepr x ++ ", " ++ YVal.pystrList (y :: xs)

def YVal.pystrPairs : List (String × YVal) → String
  | [] => ""
  | [(k, v)] => "\x27" ++ k ++ "\x27: " ++ YVal.pyrepr v
  | (k, v) :: p :: xs => "\x27" ++ k ++ "\x27: " ++ YVal.pyrepr v ++ ", " ++ YVal.pystrPairs (p :: xs)

end

/-! ## Recipe validation (benchmark_manager.py, `validate_recipe`, lines 79-234)

Each raised `ValueError` becomes `.error (.valueError msg)`; the
`TypeError` Python raises on the `notifications: null` edge case is also
modelled.  The checks run in source order and stop at the first failure. -/

inductive PyErr where
  | valueError : String → PyErr
  | typeError : String → PyErr
deriving DecidableEq, Repr

/-- The ten required top-level sections (line 87). -/
def requiredSections : List String :=
  ["meta", "global", "services", "clients", "monitors", "loggers",
   "execution", "reporting", "notifications", "cleanup"]

def missingSectionMsg (s : String) : String :=
  "Missing required top-level section \x27" ++ s ++ "\x27 in recipe."

/-- `for section in required_sections: if section not in self.recipe: raise ...` -/
def checkSections (r : YVal) : List String → Except PyErr Unit
  | [] => .ok ()
  | s :: rest =>
    if r.hasKey s then checkSections r rest
    else .error (.valueError (missingSectionMsg s))

def metaRequiredKeys : List String := ["name", "description", "author", "created_at"]

def checkMetaKeys (m : YVal) : List String → Except PyErr Unit
  | [] => .ok ()
  | k :: rest =>
    if !m.hasKey k || !(m.getD k .null).truthy then
      .error (.valueError ("meta." ++ k ++ " is required and must be non-empty."))
    else checkMetaKeys m rest

def checkMeta (r : YVal) : Except PyErr Unit :=
  let meta := r.getD "meta" (.dict [])
  if !meta.isDict then .error (.valueError "Section \x27meta\x27 must be a mapping.")
  else checkMetaKeys meta metaRequiredKeys

def checkGlobal (r : YVal) : Except PyErr Unit :=
  let g := r.getD "global" (.dict [])
  if !g.isDict then .error (.valueError "Section \x27global\x27 must be a mapping.")
  else if !g.hasKey "workspace" || !(g.getD "workspace" .null).isStr then
    .error (.valueError "global.workspace is required and must be a string.")
  else if g.hasKey "timeout" && !(g.getD "timeout" .null).isInstInt then
    .error (.valueError "global.timeout, if present, must be an integer (seconds).")
  else .ok ()

/-- `for key in (...): if key not in <entry>: raise "<what>[i] missing required field '<key>'."` -/
def checkFieldsPresent (what : String) (i : Nat) (v : YVal) :
    List String → Except PyErr Unit
  | [] => .ok ()
  | k :: rest =>
    if v.hasKey k then checkFieldsPresent what i v rest
    else .error (.valueError
      (what ++ "[" ++ toString i ++ "] missing required field \x27" ++ k ++ "\x27."))

/-- The rejection message for a service executor type outside
`{apptainer, slurm}` (line 139). -/
def serviceTypeErrMsg (i : Nat) (ex_type : YVal) : String :=
  "services[" ++ toString i ++ "] executor.type must be \x27apptainer\x27 or \x27slurm\x27, got \x27"
    ++ ex_type.pystr ++ "\x27."

/-- The executor checks of one `services[i]` entry (lines 126-139): the
accepted types are exactly `apptainer` (requiring a truthy `image`) and
`slurm` (requiring a `slurm` mapping); anything else is rejected.
(Python's `ex_type == "apptainer"` is string equality when `ex_type` is a
string and false for every non-string value.) -/
def checkServiceExecutor (i : Nat) (svc : YVal) : Except PyErr Unit :=
  let executor := svc.getD "executor" .null
  if !executor.isDict then
    .error (.valueError ("services[" ++ toString i ++ "].executor must be a mapping."))
  else if !executor.hasKey "type" then
    .error (.valueError ("services[" ++ toString i ++ "].executor.type is required."))
  else
    match executor.getD "type" .null with
    | .s t =>
      if t = "apptainer" then
        if !executor.hasKey "image" || !(executor.getD "image" .null).truthy then
          .error (.valueError
            ("services[" ++ toString i ++ "] executor.type=apptainer requires \x27image\x27."))
        else .ok ()
      else if t = "slurm" then
        if !executor.hasKey "slurm" || !(executor.getD "slurm" .null).isDict then
          .error (.valueError
            ("services[" ++ toString i ++ "] executor.type=slurm requires a \x27slurm\x27 mapping."))
        else .ok ()
      else .error (.valueError (serviceTypeErrMsg i (.s t)))
    | other => .error (.valueError (serviceTypeErrMsg i other))

def checkServicesLoop : Nat → List YVal → List YVal → Except PyErr Unit
  | _, _, [] => .ok ()
  | i, seen, svc :: rest =>
    if !svc.isDict then
      .error (.valueError ("services[" ++ toString i ++ "] must be a mapping."))
    else
      match checkFieldsPresent "services" i svc ["id", "role", "executor"] with
      | .error e => .error e
      | .ok _ =>
        let sid := svc.getD "id" .null
        if seen.any fun x => YVal.scalarEq x sid then
          .error (.valueError ("Duplicate service id \x27" ++ sid.pystr ++ "\x27."))
        else
          match checkServiceExecutor i svc with
          | .error e => .error e
          | .ok _ => checkServicesLoop (i + 1) (seen ++ [sid]) rest

def checkServices (r : YVal) : Except PyErr Unit :=
  match r.getD "services" (.arr []) with
  | .arr svcs =>
    if svcs.isEmpty then
      .error (.valueError "At least one service must be defined in \x27services\x27.")
    else checkServicesLoop 0 [] svcs
  | _ => .error (.valueError "Section \x27services\x27 must be a list.")

/-- The executor checks of one `clients[i]` entry (lines 158-166): only the
presence of `type` is required; the executor type value itself is not
constrained, and only a `slurm`-typed executor that also carries a
`slurm` key has that key's shape checked. -/
def checkClientExecutor (i : Nat) (cl : YVal) : Except PyErr Unit :=
  let execr := cl.getD "executor" .null
  if !execr.isDict then
    .error (.valueError ("clients[" ++ toString i ++ "].executor must be a mapping."))
  else if !execr.hasKey "type" then
    .error (.valueError ("clients[" ++ toString i ++ "].executor.type is required."))
  else if YVal.scalarEq (execr.getD "type" .null) (.s "slurm") && execr.hasKey "slurm" then
    if !(execr.getD "slurm" .null).isDict then
      .error (.valueError ("clients[" ++ toString i ++ "].executor.slurm must be a mapping."))
    else .ok ()
  else .ok ()

def checkClientsLoop : Nat → List YVal → List YVal → Except PyErr Unit
  | _, _, [] => .ok ()
  | i, seen, cl :: rest =>
    if !cl.isDict then
      .error (.valueError ("clients[" ++ toString i ++ "] must be a mapping."))
    else
      match checkFieldsPresent "clients" i cl ["id", "type", "executor"] with
      | .error e => .error e
      | .ok _ =>
        let cid := cl.getD "id" .null
        if seen.any fun x => YVal.scalarEq x cid then
          .error (.valueError ("Duplicate client id \x27" ++ cid.pystr ++ "\x27."))
        else
          match checkClientExecutor i cl with
          | .error e => .error e
          | .ok _ =>
            -- workload optional but if present must be mapping
            if cl.hasKey "workload" && !(cl.getD "workload" .null).isDict then
              .error (.valueError
                ("clients[" ++ toString i ++ "].workload must be a mapping if present."))
            else checkClientsLoop (i + 1) (seen ++ [cid]) rest

def checkClients (r : YVal) : Except PyErr Unit :=
  match r.getD "clients" (.arr []) with
  | .arr cls =>
    if cls.isEmpty then
      .error (.valueError "At least one client must be defined in \x27clients\x27.")
    else checkClientsLoop 0 [] cls
  | _ => .error (.valueError "Section \x27clients\x27 must be a list.")

def checkMonitorsLoop : Nat → List YVal → Except PyErr Unit
  | _, [] => .ok ()
  | i, m :: rest =>
    if !m.isDict then
      .error (.valueError ("monitors[" ++ toString i ++ "] must be a mapping."))
    else
      match checkFieldsPresent "monitors" i m ["id", "type"] with
      | .error e => .error e
      | .ok _ =>
        if m.hasKey "config" && !(m.getD "config" .null).isDict then
          .error (.valueError ("monitors[" ++ toString i ++ "].config must be a mapping if present."))
        else checkMonitorsLoop (i + 1) rest

def checkMonitors (r : YVal) : Except PyErr Unit :=
  match r.getD "monitors" (.arr []) with
  | .arr ms => checkMonitorsLoop 0 ms
  | _ => .error (.valueError "Section \x27monitors\x27 must be a list.")

def checkLoggersLoop : Nat → List YVal → Except PyErr Unit
  | _, [] => .ok ()
  | i, l :: rest =>
    if !l.isDict then
      .error (.valueError ("loggers[" ++ toString i ++ "] must be a mapping."))
    else
      match checkFieldsPresent "loggers" i l ["id", "type"] with
      | .error e => .error e
      | .ok _ =>
        if l.hasKey "paths" && !(l.getD "paths" .null).isList then
          .error (.valueError ("loggers[" ++ toString i ++ "].paths must be a list if present."))
        else checkLoggersLoop (i + 1) rest

def checkLoggers (r : YVal) : Except PyErr Unit :=
  match r.getD "loggers" (.arr []) with
  | .arr ls => checkLoggersLoop 0 ls
  | _ => .error (.valueError "Section \x27loggers\x27 must be a list.")

def checkExecution (r : YVal) : Except PyErr Unit :=
  let ex := r.getD "execution" (.dict [])
  if !ex.isDict then .error (.valueError "Section \x27execution\x27 must be a mapping.")
  else if !ex.hasKey "duration" || !(ex.getD "duration" .null).isInstInt then
    .error (.valueError "execution.duration is required and must be an integer (seconds).")
  else if ex.hasKey "warmup" && !(ex.getD "warmup" .null).isInstInt then
    .error (.valueError "execution.warmup must be an integer if present.")
  else if ex.hasKey "post_actions" && !(ex.getD "post_actions" .null).isList then
    .error (.valueError "execution.post_actions must be a list if present.")
  else .ok ()

def checkOutputsLoop : Nat → List YVal → Except PyErr Unit
  | _, [] => .ok ()
  | i, o :: rest =>
    if !o.isDict || !o.hasKey "type" || !o.hasKey "file" then
      .error (.valueError
        ("reporting.outputs[" ++ toString i ++ "] must be a mapping containing \x27type\x27 and \x27file\x27."))
    else checkOutputsLoop (i + 1) rest

def checkReporting (r : YVal) : Except PyErr Unit :=
  let rep := r.getD "reporting" (.dict [])
  if !rep.isDict then .error (.valueError "Section \x27reporting\x27 must be a mapping.")
  else
    match rep.getD "outputs" (.arr []) with
    | .arr outs => checkOutputsLoop 0 outs
    | _ => .error (.valueError "reporting.outputs must be a list.")

def checkNotifications (r : YVal) : Except PyErr Unit :=
  let n := r.getD "notifications" (.dict [])
  -- `if notifications is not None and not isinstance(notifications, dict)`
  if !n.isNull && !n.isDict then
    .error (.valueError "Section \x27notifications\x27 must be a mapping if present.")
  else
    match n with
    | .null =>
      -- `"webhook" in notifications` with `notifications = None`
      .error (.typeError "argument of type \x27NoneType\x27 is not iterable")
    | _ =>
      if n.hasKey "webhook" && !(n.getD "webhook" .null).isStr then
        .error (.valueError "notifications.webhook must be a string URL if present.")
      else .ok ()

def checkCleanup (r : YVal) : Except PyErr Unit :=
  let c := r.getD "cleanup" (.dict [])
  if !c.isDict then .error (.valueError "Section \x27cleanup\x27 must be a mapping.")
  else if c.hasKey "remove_containers" && !(c.getD "remove_containers" .null).isInstBool then
    .error (.valueError "cleanup.remove_containers must be a boolean if present.")
  else if c.hasKey "preserve_artifacts" && !(c.getD "preserve_artifacts" .null).isInstBool then
    .error (.valueError "cleanup.preserve_artifacts must be a boolean if present.")
  else .ok ()

/-- `BenchmarkManager.validate_recipe` (lines 79-234).  Pure validation: it
constructs no executor, monitor or logger object (executor construction
lives in `_create_executor`, called only from `run_benchmark`). -/
def validate_recipe (recipe : Option YVal) : Except PyErr Unit :=
  match recipe with
  | none => .error (.valueError "No recipe loaded.")
  | some r =>
    if !r.isDict then
      .error (.valueError "Recipe must be a YAML mapping (dictionary) at top level.")
    else do
      checkSections r requiredSections
      checkMeta r
      checkGlobal r
      checkServices r
      checkClients r
      checkMonitors r
      checkLoggers r
      checkExecution r
      checkReporting r
      checkNotifications r
      checkCleanup r

/-! ## Workload registry (src/Core/workloads/__init__.py) -/

inductive WorkloadRunner where
  | s3UploadRun
  | vllmInferenceRun
deriving DecidableEq, Repr

/-- `WORKLOAD_REGISTRY` (lines 5-8). -/
def WORKLOAD_REGISTRY : List (String × WorkloadRunner) :=
  [("s3-upload", .s3UploadRun), ("vllm-inference", .vllmInferenceRun)]

/-- `get_workload_runner` (lines 11-18): `if not name` rejects both a
missing and an empty name; an unregistered name raises `ValueError`. -/
def get_workload_runner (name : Option String) : Except String WorkloadRunner :=
  match name with
  | none => .error "Workload type is required"
  | some n =>
    if n.isEmpty then .error "Workload type is required"
    else
      match WORKLOAD_REGISTRY.lookup n with
      | some r => .ok r
      | none =>
        .error ("Unknown workload type \x27" ++ n
          ++ "\x27. Available: [\x27s3-upload\x27, \x27vllm-inference\x27]")

/-! ## Health gate -/

/-- Modelled from the spec: the Health Gate component (spec §2, §4.4, §6,
§8) has no implementation under `src/` — only the spec describes it.  The
gate polls the target once per `interval` seconds starting at time 0,
returns `.ok t` as soon as the target responds with the expected status
code at poll time `t`, and once the `timeout` has elapsed raises
`HealthCheckTimeout` (`.error t` with `t` the raise time).  `fuel` bounds
the recursion; theorems supply enough for the loop to reach its exit. -/
def healthGateLoop (timeout interval : Nat) (respondsOk : Nat → Bool) :
    Nat → Nat → Except Nat Nat
  | 0, t => .error t
  | fuel + 1, t =>
    if t < timeout then
      if respondsOk t then .ok t
      else healthGateLoop timeout interval respondsOk fuel (t + interval)
    else .error t

structure HealthGatedRun where
  started : List String
  stopped : List String
  raised : Bool
deriving DecidableEq, Repr

/-- Modelled from the spec: the manager starts services sequentially, each
behind its health gate; on the first gate timeout it forces teardown of
every already-started service (the failing one included) and re-raises
the timeout as a fatal error. -/
def startServicesHealthGated (gateOk : String → Bool) :
    List String → List String → HealthGatedRun
  | started, [] => { started := started, stopped := [], raised := false }
  | started, s :: rest =>
    if gateOk s then startServicesHealthGated gateOk (started ++ [s]) rest
    else { started := started ++ [s], stopped := started ++ [s], raised := true }

/-! ## Auxiliary definitions for the theorems -/

/-- Executor-instance invariant for `ProcessExecutor`: every process this
instance ever spawned was allocated by the world, and any of them that is
still alive is the currently tracked one — i.e. at most one live unit. -/
def ProcessExecutorInv (w : OSWorld) (s : ProcessExecutorState) : Prop :=
  (∀ p ∈ s.spawned, p < w.nextPid) ∧
  (∀ p ∈ s.spawned, w.alive p = true → s.process = some p)

/-- A service entry whose executor carries a parametric `type` together
with both an `image` and a `slurm` mapping, so that the validator's
`apptainer` and `slurm` branches succeed and every other type reaches the
rejection branch. -/
def serviceEntryWithType (ty : String) : YVal :=
  .dict [("id", .s "svc1"), ("role", .s "server"),
    ("executor", .dict
      [("type", .s ty), ("image", .s "vllm.sif"),
       ("slurm", .dict [("job_name", .s "svc1-job")])])]

/-- A client whose executor type is `workload` and whose `workload.type`
names nothing in the workload registry. -/
def clientUnknownWorkload : YVal :=
  .dict [("id", .s "cli1"), ("type", .s "client"),
    ("executor", .dict [("type", .s "workload")]),
    ("workload", .dict [("type", .s "no-such-workload")])]

/-- A recipe that is valid in every respect except, possibly, the service
executor type under test; its single client uses the `workload` executor
type with an unregistered `workload.type`. -/
def recipeWithServiceType (ty : String) : YVal :=
  .dict
    [("meta", .dict [("name", .s "bench"), ("description", .s "demo"),
        ("author", .s "ci"), ("created_at", .s "2025-01-01")]),
     ("global", .dict [("workspace", .s "/tmp/ws")]),
     ("services", .arr [serviceEntryWithType ty]),
     ("clients", .arr [clientUnknownWorkload]),
     ("monitors", .arr []),
     ("loggers", .arr []),
     ("execution", .dict [("duration", .i 60)]),
     ("reporting", .dict [("outputs", .arr [])]),
     ("notifications", .dict []),
     ("cleanup", .dict [])]

/-! # Claim theorems -/

/-- **C6**: for every `(message, level)` pair, `FileLogger.log` raises
`AttributeError` (it enters `with self._lock:` while `__init__` never
creates a `_lock` attribute), and consequently `Service.start` on a
service with a `FileLogger` attached raises before the executor's `run`
is ever invoked. -/
theorem file_logger_missing_lock_attribute :
    (∀ message level : String,
        FileLogger.log message level = .error fileLoggerLockError) ∧
    (∀ sid : String,
        Service.start (some FileLogger.log) sid
          = { executorRan := false, error := some fileLoggerLockError }) :=
  ⟨fun _ _ => rfl, fun _ => rfl⟩

/-- **C4 counterexample**: the claim says every value `status()` returns
belongs to the normalized set and that a query failure yields `unknown`;
but a `ProcessExecutor` whose process exited with code 0 reports
`"finished (code=0)"`, which is outside the normalized set, and a
`SlurmExecutor` whose `squeue` query fails reports `"not found"`, not
`"unknown"`. -/
theorem executor_status_not_normalized_counterexample :
    ProcessExecutor.status ⟨1, fun _ => some 0⟩ { process := some 0, spawned := [0] }
        = "finished (code=0)" ∧
    "finished (code=0)" ∉ normalizedStatuses ∧
    SlurmExecutor.status (some "123") (.error ()) = "not found" ∧
    "not found" ≠ "unknown" ∧ "not found" ∉ normalizedStatuses := by
  refine ⟨rfl, by decide, rfl, by decide, by decide⟩

/-- **C4 (amended)**: `status()` is total on every backend — in particular
the Slurm `squeue` failure is caught — but the returned vocabulary is
backend-native rather than normalized: Process reports `not_started`,
`running` or `finished (code=N)`; Apptainer reports `no process`,
`running` or `finished`; Slurm reports `no job`, `not found` (on a query
failure, not `unknown`) or the scheduler's stripped output verbatim; only
the WorkloadExecutor's vocabulary lies inside the normalized set. -/
theorem executor_status_vocabulary :
    (∀ w s, ProcessExecutor.status w s = "not_started" ∨
        ProcessExecutor.status w s = "running" ∨
        ∃ ret : Int, ProcessExecutor.status w s = "finished (code=" ++ toString ret ++ ")") ∧
    (∀ w s, ApptainerExecutor.status w s ∈ ["no process", "running", "finished"]) ∧
    (∀ q, SlurmExecutor.status none q = "no job") ∧
    (∀ j, SlurmExecutor.status (some j) (.error ()) = "not found") ∧
    (∀ j out, SlurmExecutor.status (some j) (.ok out) = out.trim) ∧
    (∀ s, s.wstatus ∈ normalizedStatuses → WorkloadExecutor.status s ∈ normalizedStatuses) := by
  refine ⟨?_, ?_, fun _ => rfl, fun _ => rfl, fun _ _ => rfl, fun s h => h⟩
  · intro w s
    cases hv : s.process with
    | none => exact Or.inl (by simp [ProcessExecutor.status, hv])
    | some p =>
      cases hq : w.poll p with
      | none => exact Or.inr (Or.inl (by simp [ProcessExecutor.status, hv, hq]))
      | some ret => exact Or.inr (Or.inr ⟨ret, by simp [ProcessExecutor.status, hv, hq]⟩)
  · intro w s
    cases hv : s.proc with
    | none => simp [ApptainerExecutor.status, hv]
    | some p =>
      by_cases ha : w.alive p = true
      · simp [ApptainerExecutor.status, hv, ha]
      · simp [ApptainerExecutor.status, hv, ha]

/-- **C9 counterexample**: the claim says `status()` after a
never-started `stop()` is `not_started` or another terminal status; a
fresh `SlurmExecutor` reports `"no job"` after `stop()`, which is neither
`"not_started"` nor in the terminal set (the Apptainer backend's
`"no process"` likewise). -/
theorem slurm_fresh_stop_status_counterexample :
    SlurmExecutor.stop none = none ∧
    SlurmExecutor.status (SlurmExecutor.stop none) (.ok "") = "no job" ∧
    "no job" ∉ "not_started" :: terminalStatuses ∧
    "no process" ∉ "not_started" :: terminalStatuses := by
  refine ⟨rfl, rfl, by decide, by decide⟩

/-- **C9 (amended)**: on every backend, `stop()` on a never-started
executor raises nothing and is a no-op; the subsequent `status()` is the
backend's native not-started value — `not_started` for Process and
Workload, but `no process` for Apptainer and `no job` for Slurm. -/
theorem executor_stop_never_started_amended :
    (∀ w, ProcessExecutor.stop w ProcessExecutor.init = (w, ProcessExecutor.init)) ∧
    (∀ w, ProcessExecutor.status w (ProcessExecutor.stop w ProcessExecutor.init).2
        = "not_started") ∧
    (WorkloadExecutor.stop WorkloadExecutor.init = WorkloadExecutor.init) ∧
    (WorkloadExecutor.status (WorkloadExecutor.stop WorkloadExecutor.init) = "not_started") ∧
    (∀ w, ApptainerExecutor.stop w ApptainerExecutor.init = (w, ApptainerExecutor.init)) ∧
    (∀ w, ApptainerExecutor.status w (ApptainerExecutor.stop w ApptainerExecutor.init).2
        = "no process") ∧
    (SlurmExecutor.stop none = none) ∧
    (∀ q, SlurmExecutor.status (SlurmExecutor.stop none) q = "no job") :=
  ⟨fun _ => rfl, fun _ => rfl, rfl, rfl, fun _ => rfl, fun _ => rfl, rfl, fun _ => rfl⟩

/-- **C1 counterexample**: the claim says an unmapped or query-failure
status keeps the polling loop alive and early termination happens only
when every client is in `finished|failed|stopped`; but with one client
reporting `"not found"` (Slurm's query-failure value, unmapped by the
loop's keep-alive tuple) the loop declares completion at its very first
iteration. -/
theorem pollLoop_unmapped_status_counterexample :
    pollLoop 600 5 (fun _ => [.ok (some "not found")]) 3 0 = (0, true) ∧
    some "not found" ∉ terminalStatuses.map some := by
  refine ⟨by decide, by decide⟩

/-- **C2 counterexample**: the claim says every registry workload with
`max_consecutive_errors = k` stops a worker after exactly `k` consecutive
failures; the `s3-upload` worker ignores request failures entirely (its
config reads no such key), so with `k = 1`, `duration_sec = 0` and a
3-object target it still performs all 3 failing iterations and exits on
the object target, not the circuit breaker. -/
theorem s3_no_circuit_breaker_counterexample :
    s3WorkerLoop ⟨0, 3⟩ (fun _ => 0) (fun _ => false) (fun _ => false) 4 ⟨0, 0⟩
        = (⟨3, 0⟩, .targetReached) ∧
    (3 : Nat) ≠ 1 ∧ WorkerExit.targetReached ≠ WorkerExit.circuitBreaker := by
  refine ⟨by decide, by decide, by decide⟩

/-- **C3 counterexample**: the claim says a second `run()` on a live
Apptainer executor first stops the previous unit; starting from the empty
world, two consecutive `ApptainerExecutor.run` calls leave both spawned
container processes alive simultaneously. -/
theorem apptainer_run_two_live_counterexample :
    (ApptainerExecutor.run
        (ApptainerExecutor.run OSWorld.initial ApptainerExecutor.init).1
        (ApptainerExecutor.run OSWorld.initial ApptainerExecutor.init).2).2.spawned
      = [0, 1] ∧
    (ApptainerExecutor.run
        (ApptainerExecutor.run OSWorld.initial ApptainerExecutor.init).1
        (ApptainerExecutor.run OSWorld.initial ApptainerExecutor.init).2).1.alive 0 = true ∧
    (ApptainerExecutor.run
        (ApptainerExecutor.run OSWorld.initial ApptainerExecutor.init).1
        (ApptainerExecutor.run OSWorld.initial ApptainerExecutor.init).2).1.alive 1 = true ∧
    (0 : Pid) ≠ 1 := by
  refine ⟨rfl, rfl, rfl, by decide⟩

/-- **C5 counterexample**: the claim says validation accepts exactly the
executor types `{process, batch, container, workload}`; the validator
rejects a service whose executor type is `process` (it accepts only
`apptainer` and `slurm`). -/
theorem validate_recipe_process_type_counterexample :
    validate_recipe (some (recipeWithServiceType "process"))
        = .error (.valueError
            "services[0] executor.type must be \x27apptainer\x27 or \x27slurm\x27, got \x27process\x27.") ∧
    "process" ∈ ["process", "batch", "container", "workload"] := by
  refine ⟨rfl, by decide⟩

/-- Auxiliary induction for the polling-loop characterization: from poll
tick `k` with all earlier ticks not-done, the loop either breaks early at
the first all-done tick before `duration`, or runs out the clock. -/
theorem pollLoop_go (duration I : Nat) (hI : 0 < I)
    (sched : Nat → List (Except Unit (Option String))) :
    ∀ fuel k, duration ≤ (k + fuel) * I →
      (∀ j, j < k → allClientsDone (sched (j * I)) = false) →
      (∃ m, pollLoop duration I sched fuel (k * I) = (m * I, true) ∧ m * I < duration ∧
          allClientsDone (sched (m * I)) = true ∧
          ∀ j, j < m → allClientsDone (sched (j * I)) = false) ∨
      (∃ t, pollLoop duration I sched fuel (k * I) = (t, false) ∧ duration ≤ t ∧
          ∀ j, j * I < duration → allClientsDone (sched (j * I)) = false) := by
  intro fuel
  induction fuel with
  | zero =>
    intro k hk hprior
    right
    refine ⟨k * I, rfl, by simpa using hk, fun j hj => ?_⟩
    have hk' : duration ≤ k * I := by simpa using hk
    exact hprior j (Nat.lt_of_mul_lt_mul_right (show j * I < k * I by omega))
  | succ n ih =>
    intro k hk hprior
    by_cases ht : k * I < duration
    · by_cases hd : allClientsDone (sched (k * I)) = true
      · exact Or.inl ⟨k, by simp [pollLoop, ht, hd], ht, hd, hprior⟩
      · have hd' : allClientsDone (sched (k * I)) = false := by
          cases h : allClientsDone (sched (k * I)) <;> simp_all
        have hstep : pollLoop duration I sched (n + 1) (k * I)
            = pollLoop duration I sched n ((k + 1) * I) := by
          have harith : k * I + I = (k + 1) * I := by ring
          simp [pollLoop, ht, hd', harith]
        have hk2 : duration ≤ (k + 1 + n) * I := by
          have : (k + 1 + n) * I = (k + (n + 1)) * I := by ring
          omega
        have hprior2 : ∀ j, j < k + 1 → allClientsDone (sched (j * I)) = false := by
          intro j hj
          rcases Nat.lt_succ_iff_lt_or_eq.mp hj with hlt | heq
          · exact hprior j hlt
          · simpa [heq] using hd'
        rw [hstep]
        exact ih (k + 1) hk2 hprior2
    · right
      refine ⟨k * I, by simp [pollLoop, ht], by omega, fun j hj => ?_⟩
      exact hprior j (Nat.lt_of_mul_lt_mul_right (show j * I < k * I by omega))

/-- **C1 (amended)**: the `run_benchmark` loop polls each client once per
`poll_interval`; a status query that raises or returns a member of
`("running", "RUNNING", "PENDING", "UNKNOWN", None)` keeps the loop
alive, and *any other* returned status — the unmapped and query-failure
strings such as `"not found"` included — counts toward completion.  The
loop exits early at the first poll tick at which every client reports
such a status, and otherwise exits when `duration` elapses. -/
theorem run_benchmark_poll_loop_characterization (duration I fuel : Nat)
    (sched : Nat → List (Except Unit (Option String)))
    (hI : 0 < I) (hfuel : duration ≤ fuel * I) :
    (∃ m, pollLoop duration I sched fuel 0 = (m * I, true) ∧ m * I < duration ∧
        allClientsDone (sched (m * I)) = true ∧
        ∀ j, j < m → allClientsDone (sched (j * I)) = false) ∨
    (∃ t, pollLoop duration I sched fuel 0 = (t, false) ∧ duration ≤ t ∧
        ∀ j, j * I < duration → allClientsDone (sched (j * I)) = false) := by
  have h := pollLoop_go duration I hI sched fuel 0 (by simpa using hfuel)
    (fun j hj => absurd hj (Nat.not_lt_zero j))
  simpa using h

/-- Witness for the polling-loop characterization at `duration = 10`,
`poll_interval = 5`, one client reporting `"COMPLETED"`. -/
theorem run_benchmark_poll_loop_characterization_witness :
    (∃ m, pollLoop 10 5 (fun _ => [Except.ok (some "COMPLETED")]) 2 0 = (m * 5, true) ∧
        m * 5 < 10 ∧
        allClientsDone [Except.ok (some "COMPLETED")] = true ∧
        ∀ j, j < m → allClientsDone [Except.ok (some "COMPLETED")] = false) ∨
    (∃ t, pollLoop 10 5 (fun _ => [Except.ok (some "COMPLETED")]) 2 0 = (t, false) ∧
        10 ≤ t ∧
        ∀ j, j * 5 < 10 → allClientsDone [Except.ok (some "COMPLETED")] = false) :=
  run_benchmark_poll_loop_characterization 10 5 2
    (fun _ => [Except.ok (some "COMPLETED")]) (by decide) (by decide)

/-- Auxiliary induction: the vLLM worker facing an unbroken run of
failures counts up `consecutive_errors` and exits through the circuit
breaker as soon as it reaches `max_consecutive_errors`. -/
theorem vllmWorkerLoop_all_fail (k : Nat) (elapsedAt : Nat → Nat) :
    ∀ fuel c i, c ≤ k → k - c < fuel →
      vllmWorkerLoop ⟨0, 0, k⟩ elapsedAt (fun _ => false) (fun _ => false) fuel ⟨i, c⟩
        = (⟨i + (k - c), k⟩, .circuitBreaker) := by
  intro fuel
  induction fuel with
  | zero => intro c i _ hf; omega
  | succ n ih =>
    intro c i hc hf
    by_cases hck : k ≤ c
    · have hck' : c = k := le_antisymm hc hck
      subst hck'
      simp [vllmWorkerLoop, hck]
    · have hstep :
          vllmWorkerLoop ⟨0, 0, k⟩ elapsedAt (fun _ => false) (fun _ => false) (n + 1) ⟨i, c⟩
            = vllmWorkerLoop ⟨0, 0, k⟩ elapsedAt (fun _ => false) (fun _ => false) n
                ⟨i + 1, c + 1⟩ := by
        simp [vllmWorkerLoop, hck]
      rw [hstep, ih (c + 1) (i + 1) (by omega) (by omega)]
      have : i + 1 + (k - (c + 1)) = i + (k - c) := by omega
      rw [this]

/-- Auxiliary induction: the s3 worker facing an unbroken run of upload
failures keeps iterating until the per-thread object target is reached;
failures affect neither the loop control nor the uploaded count. -/
theorem s3WorkerLoop_all_fail (n : Nat) :
    ∀ fuel i u, i ≤ n → n - i < fuel →
      s3WorkerLoop ⟨0, n⟩ (fun _ => 0) (fun _ => false) (fun _ => false) fuel ⟨i, u⟩
        = (⟨n, u⟩, .targetReached) := by
  intro fuel
  induction fuel with
  | zero => intro i u _ hf; omega
  | succ m ih =>
    intro i u hi hf
    by_cases hin : n ≤ i
    · have : i = n := le_antisymm hi hin
      subst this
      simp [s3WorkerLoop, hin]
    · have hstep :
          s3WorkerLoop ⟨0, n⟩ (fun _ => 0) (fun _ => false) (fun _ => false) (m + 1) ⟨i, u⟩
            = s3WorkerLoop ⟨0, n⟩ (fun _ => 0) (fun _ => false) (fun _ => false) m
                ⟨i + 1, u⟩ := by
        simp [s3WorkerLoop, hin]
      rw [hstep, ih (i + 1) u (by omega) (by omega)]

/-- **C2 (amended)**: among the two registered workloads only
`vllm-inference` implements the circuit breaker.  A vLLM worker in
run-until-stopped mode (`duration_sec = 0`, no request target, stop event
never set) facing an unbroken run of failures checks its stop conditions
at the top of every iteration and stops through the breaker after exactly
`k` failed requests.  The `s3-upload` worker reads no
`max_consecutive_errors` configuration and ignores request failures: under
unbroken failures it runs all `n` target iterations and exits on the
object target. -/
theorem worker_circuit_breaker_amended (k fuel : Nat) (elapsedAt : Nat → Nat)
    (hfuel : k < fuel) :
    vllmWorkerLoop ⟨0, 0, k⟩ elapsedAt (fun _ => false) (fun _ => false) fuel ⟨0, 0⟩
        = (⟨k, k⟩, .circuitBreaker) ∧
    (∀ n fuel2 : Nat, n < fuel2 →
      s3WorkerLoop ⟨0, n⟩ (fun _ => 0) (fun _ => false) (fun _ => false) fuel2 ⟨0, 0⟩
        = (⟨n, 0⟩, .targetReached)) := by
  constructor
  · have h := vllmWorkerLoop_all_fail k elapsedAt fuel 0 0 (Nat.zero_le k) (by omega)
    simpa using h
  · intro n fuel2 hf
    exact s3WorkerLoop_all_fail n fuel2 0 0 (Nat.zero_le n) (by omega)

/-- Witness for the circuit-breaker theorem at `k = 2` and a 3-object s3
worker. -/
theorem worker_circuit_breaker_amended_witness :
    (2 : Nat) < 4 ∧
    vllmWorkerLoop ⟨0, 0, 2⟩ (fun _ => 0) (fun _ => false) (fun _ => false) 4 ⟨0, 0⟩
        = (⟨2, 2⟩, .circuitBreaker) ∧
    s3WorkerLoop ⟨0, 3⟩ (fun _ => 0) (fun _ => false) (fun _ => false) 5 ⟨0, 0⟩
        = (⟨3, 0⟩, .targetReached) :=
  ⟨by decide,
   (worker_circuit_breaker_amended 2 4 (fun _ => 0) (by decide)).1,
   (worker_circuit_breaker_amended 2 4 (fun _ => 0) (by decide)).2 3 5 (by decide)⟩

/-- **C3 (amended)**: the idempotent-restart guarantee holds for
`ProcessExecutor` — its `run` stops a still-live previous unit before
spawning the new one, so across any run history at most one of the
processes it ever spawned is alive — but not for `ApptainerExecutor`,
whose `run` overwrites the previous handle without stopping it (see the
counterexample). -/
theorem process_executor_single_live_unit (w : OSWorld) (s : ProcessExecutorState)
    (h : ProcessExecutorInv w s) :
    ProcessExecutorInv (ProcessExecutor.run w s).1 (ProcessExecutor.run w s).2 ∧
    (∀ p ∈ (ProcessExecutor.run w s).2.spawned,
     ∀ q ∈ (ProcessExecutor.run w s).2.spawned,
      (ProcessExecutor.run w s).1.alive p = true →
      (ProcessExecutor.run w s).1.alive q = true → p = q) := by
  obtain ⟨hbound, hlive⟩ := h
  obtain ⟨sproc, sspawn⟩ := s
  have main : ProcessExecutorInv (ProcessExecutor.run w ⟨sproc, sspawn⟩).1
      (ProcessExecutor.run w ⟨sproc, sspawn⟩).2 := by
    cases sproc with
    | none =>
      have hrun : ProcessExecutor.run w ⟨none, sspawn⟩
          = ({ nextPid := w.nextPid + 1
               procs := fun q => if q = w.nextPid then none else w.procs q },
             { process := some w.nextPid, spawned := sspawn ++ [w.nextPid] }) := rfl
      rw [hrun]
      constructor
      · intro p hp
        rcases List.mem_append.mp hp with hp | hp
        · exact Nat.lt_succ_of_lt (hbound p hp)
        · rcases List.mem_singleton.mp hp with rfl
          exact Nat.lt_succ_self _
      · intro p hp hal
        rcases List.mem_append.mp hp with hp | hp
        · exfalso
          have hne : p ≠ w.nextPid := Nat.ne_of_lt (hbound p hp)
          have hal' : w.alive p = true := by
            simpa [OSWorld.alive, OSWorld.poll, hne] using hal
          have hcontra := hlive p hp hal'
          exact Option.noConfusion hcontra
        · rcases List.mem_singleton.mp hp with rfl
          rfl
    | some p0 =>
      by_cases hal0 : w.alive p0 = true
      · have hp0none : w.procs p0 = none := by
          simpa [OSWorld.alive, OSWorld.poll, Option.isNone_iff_eq_none] using hal0
        have hrun : ProcessExecutor.run w ⟨some p0, sspawn⟩
            = ({ nextPid := w.nextPid + 1
                 procs := fun q =>
                   if q = w.nextPid then none
                   else if q = p0 then some (-15) else w.procs q },
               { process := some w.nextPid, spawned := sspawn ++ [w.nextPid] }) := by
          simp only [ProcessExecutor.run, ProcessExecutor.stop, OSWorld.kill, OSWorld.spawn,
            hal0, if_true, hp0none]
        rw [hrun]
        constructor
        · intro p hp
          rcases List.mem_append.mp hp with hp | hp
          · exact Nat.lt_succ_of_lt (hbound p hp)
          · rcases List.mem_singleton.mp hp with rfl
            exact Nat.lt_succ_self _
        · intro p hp hal
          rcases List.mem_append.mp hp with hp | hp
          · exfalso
            have hne : p ≠ w.nextPid := Nat.ne_of_lt (hbound p hp)
            by_cases hpp0 : p = p0
            · simp [OSWorld.alive, OSWorld.poll, hne, hpp0] at hal
              exact hne (hpp0.trans hal)
            · have hal' : w.alive p = true := by
                simpa [OSWorld.alive, OSWorld.poll, hne, hpp0] using hal
              have hcontra := hlive p hp hal'
              exact hpp0 (Option.some_injective _ hcontra).symm
          · rcases List.mem_singleton.mp hp with rfl
            rfl
      · have hrun : ProcessExecutor.run w ⟨some p0, sspawn⟩
            = ({ nextPid := w.nextPid + 1
                 procs := fun q => if q = w.nextPid then none else w.procs q },
               { process := some w.nextPid, spawned := sspawn ++ [w.nextPid] }) := by
          simp only [ProcessExecutor.run, OSWorld.spawn, hal0, if_false,
            Bool.not_eq_true] at *
          simp [hal0]
        rw [hrun]
        constructor
        · intro p hp
          rcases List.mem_append.mp hp with hp | hp
          · exact Nat.lt_succ_of_lt (hbound p hp)
          · rcases List.mem_singleton.mp hp with rfl
            exact Nat.lt_succ_self _
        · intro p hp hal
          rcases List.mem_append.mp hp with hp | hp
          · exfalso
            have hne : p ≠ w.nextPid := Nat.ne_of_lt (hbound p hp)
            have hal' : w.alive p = true := by
              simpa [OSWorld.alive, OSWorld.poll, hne] using hal
            have hcontra := hlive p hp hal'
            have hpe : p0 = p := Option.some_injective _ hcontra
            rw [← hpe] at hal'
            exact hal0 hal'
          · rcases List.mem_singleton.mp hp with rfl
            rfl
  refine ⟨main, fun p hp q hq halp halq => ?_⟩
  have h1 := main.2 p hp halp
  have h2 := main.2 q hq halq
  rw [h1] at h2
  exact Option.some_injective _ h2

/-- Witness for the single-live-unit invariant at the fresh executor in
the empty world. -/
theorem process_executor_single_live_unit_witness :
    ProcessExecutorInv OSWorld.initial ProcessExecutor.init ∧
    (ProcessExecutorInv (ProcessExecutor.run OSWorld.initial ProcessExecutor.init).1
        (ProcessExecutor.run OSWorld.initial ProcessExecutor.init).2 ∧
     (∀ p ∈ (ProcessExecutor.run OSWorld.initial ProcessExecutor.init).2.spawned,
      ∀ q ∈ (ProcessExecutor.run OSWorld.initial ProcessExecutor.init).2.spawned,
       (ProcessExecutor.run OSWorld.initial ProcessExecutor.init).1.alive p = true →
       (ProcessExecutor.run OSWorld.initial ProcessExecutor.init).1.alive q = true →
       p = q)) :=
  have hinv : ProcessExecutorInv OSWorld.initial ProcessExecutor.init :=
    ⟨fun p hp => absurd hp (List.not_mem_nil p),
     fun p hp => absurd hp (List.not_mem_nil p)⟩
  ⟨hinv, process_executor_single_live_unit OSWorld.initial ProcessExecutor.init hinv⟩

/-- Auxiliary: walking the required-sections loop on a recipe with at
least one missing section raises on the first missing one. -/
theorem checkSections_first_missing (r : YVal) :
    ∀ L : List String, (∃ s ∈ L, r.hasKey s = false) →
      ∃ s ∈ L, r.hasKey s = false ∧
        checkSections r L = .error (.valueError (missingSectionMsg s)) := by
  intro L
  induction L with
  | nil =>
    rintro ⟨s, hs, _⟩
    exact absurd hs (List.not_mem_nil s)
  | cons a L ih =>
    rintro ⟨s, hs, hmiss⟩
    by_cases ha : r.hasKey a = true
    · rcases List.mem_cons.mp hs with rfl | hsL
      · rw [ha] at hmiss
        cases hmiss
      · obtain ⟨t, htL, htmiss, heq⟩ := ih ⟨s, hsL, hmiss⟩
        exact ⟨t, List.mem_cons_of_mem a htL, htmiss,
          by simpa [checkSections, ha] using heq⟩
    · have ha' : r.hasKey a = false := by
        cases h : r.hasKey a <;> simp_all
      exact ⟨a, List.mem_cons_self a L, ha', by simp [checkSections, ha']⟩

/-- **C8**: a recipe mapping lacking at least one of the ten required
top-level sections is rejected by `validate_recipe` with a `ValueError`
that names a missing section (the first one in declaration order); the
validator is pure and constructs no executor — executor construction
happens only later, in `_create_executor` during `run_benchmark`. -/
theorem validate_recipe_missing_section (entries : List (String × YVal)) (s : String)
    (hs : s ∈ requiredSections) (hmiss : (YVal.dict entries).hasKey s = false) :
    ∃ s2 ∈ requiredSections, (YVal.dict entries).hasKey s2 = false ∧
      validate_recipe (some (.dict entries))
        = .error (.valueError (missingSectionMsg s2)) := by
  obtain ⟨s2, hmem, hm2, heq⟩ :=
    checkSections_first_missing (.dict entries) requiredSections ⟨s, hs, hmiss⟩
  refine ⟨s2, hmem, hm2, ?_⟩
  simp [validate_recipe, YVal.isDict, heq, bind, Except.bind]

/-- Witness for the missing-section theorem on the empty recipe mapping. -/
theorem validate_recipe_missing_section_witness :
    "meta" ∈ requiredSections ∧ (YVal.dict []).hasKey "meta" = false ∧
    (∃ s2 ∈ requiredSections, (YVal.dict []).hasKey s2 = false ∧
      validate_recipe (some (.dict []))
        = .error (.valueError (missingSectionMsg s2))) :=
  ⟨by decide, rfl, validate_recipe_missing_section [] "meta" (by decide) rfl⟩

/-- **C5 (amended)**: for *services*, validation accepts exactly the
executor types `apptainer` (requiring a truthy `image`) and `slurm`
(requiring a `slurm` mapping) and rejects every other type — including
`process`, `batch`, `container` and `workload`; for *clients* the
executor type value is not constrained at all, and `workload.type` is
never resolved against the registry during validation (a recipe whose
client names an unregistered workload type validates successfully); the
unresolvable workload type is rejected only at launch time, when
`get_workload_runner` raises `ValueError`. -/
theorem validate_recipe_executor_types_amended (ty : String)
    (h1 : ty ≠ "apptainer") (h2 : ty ≠ "slurm") :
    validate_recipe (some (recipeWithServiceType ty))
        = .error (.valueError (serviceTypeErrMsg 0 (.s ty))) ∧
    validate_recipe (some (recipeWithServiceType "apptainer")) = .ok () ∧
    validate_recipe (some (recipeWithServiceType "slurm")) = .ok () ∧
    (clientUnknownWorkload.getD "workload" .null).lookup? "type"
        = some (.s "no-such-workload") ∧
    get_workload_runner (some "no-such-workload")
        = .error ("Unknown workload type \x27no-such-workload\x27. Available: [\x27s3-upload\x27, \x27vllm-inference\x27]") ∧
    get_workload_runner none = .error "Workload type is required" ∧
    get_workload_runner (some "") = .error "Workload type is required" ∧
    get_workload_runner (some "s3-upload") = .ok .s3UploadRun ∧
    get_workload_runner (some "vllm-inference") = .ok .vllmInferenceRun := by
  refine ⟨?_, by rfl, by rfl, rfl, rfl, rfl, rfl, rfl, rfl⟩
  simp +decide [validate_recipe, recipeWithServiceType, serviceEntryWithType,
    clientUnknownWorkload, requiredSections, checkSections, checkMeta, checkMetaKeys,
    metaRequiredKeys, checkGlobal, checkServices, checkServicesLoop, checkFieldsPresent,
    checkServiceExecutor, checkClients, checkClientsLoop, checkClientExecutor,
    checkMonitors, checkMonitorsLoop, checkLoggers, checkLoggersLoop, checkExecution,
    checkReporting, checkOutputsLoop, checkNotifications, checkCleanup,
    YVal.hasKey, YVal.lookup?, YVal.getD, YVal.isDict, YVal.isStr, YVal.truthy,
    YVal.isInstInt, YVal.isList, YVal.isInstBool, List.lookup, Option.getD,
    h1, h2, bind, Except.bind]

/-- Witness for the amended executor-type theorem at `ty = "workload"`. -/
theorem validate_recipe_executor_types_amended_witness :
    ("workload" : String) ≠ "apptainer" ∧ ("workload" : String) ≠ "slurm" ∧
    validate_recipe (some (recipeWithServiceType "workload"))
        = .error (.valueError (serviceTypeErrMsg 0 (.s "workload"))) :=
  ⟨by decide, by decide,
   (validate_recipe_executor_types_amended "workload" (by decide) (by decide)).1⟩

/-- **C7**: for every nonempty latency sequence, the p95 reported by both
workloads' `calc_stats_metrics` equals the element at index
`min(floor(0.95·n), n−1)` of the ascending-sorted sequence — the embedded
index `19·n/20` in Nat division coincides with `⌊(19/20)·n⌋ = ⌊0.95·n⌋`,
and the clamped index is always in range; for the empty sequence both
functions return zeros without raising. -/
theorem calc_stats_p95_index (lats sorted : List ℚ) (hp : sorted.Perm lats)
    (hs : sorted.Sorted (· ≤ ·)) (hne : lats ≠ []) :
    (s3CalcStats lats).2
        = sorted.getD (min (19 * lats.length / 20) (lats.length - 1)) 0 ∧
    (vllmCalcStats lats).2.1
        = sorted.getD (min (19 * lats.length / 20) (lats.length - 1)) 0 ∧
    19 * lats.length / 20 = Nat.floor ((19 / 20 : ℚ) * lats.length) ∧
    min (19 * lats.length / 20) (lats.length - 1) < lats.length ∧
    s3CalcStats [] = (0, 0) ∧ vllmCalcStats [] = (0, 0, 0) := by
  have hsir : lats.insertionSort (· ≤ ·) = sorted :=
    List.eq_of_perm_of_sorted ((List.perm_insertionSort _ lats).trans hp.symm)
      (List.sorted_insertionSort _ lats) hs
  have hlen : sorted.length = lats.length := hp.length_eq
  have hnz : lats.length ≠ 0 := fun h0 => hne (List.length_eq_zero.mp h0)
  refine ⟨?_, ?_, ?_, by omega, rfl, rfl⟩
  · simp [s3CalcStats, hne, hsir, hlen]
  · simp [vllmCalcStats, hne, hsir, hlen]
  · rw [show ((19 : ℚ) / 20) * lats.length
        = ((19 * lats.length : ℕ) : ℚ) / ((20 : ℕ) : ℚ) by push_cast; ring]
    rw [Nat.floor_div_nat, Nat.floor_natCast]

/-- Witness for the p95 theorem at the sequence `[3, 1, 2]`. -/
theorem calc_stats_p95_index_witness :
    (s3CalcStats [3, 1, 2]).2
        = ([1, 2, 3] : List ℚ).getD (min (19 * 3 / 20) (3 - 1)) 0 ∧
    (vllmCalcStats [3, 1, 2]).2.1
        = ([1, 2, 3] : List ℚ).getD (min (19 * 3 / 20) (3 - 1)) 0 ∧
    19 * 3 / 20 = Nat.floor ((19 / 20 : ℚ) * 3) ∧
    min (19 * 3 / 20) (3 - 1) < 3 ∧
    s3CalcStats [] = (0, 0) ∧ vllmCalcStats [] = (0, 0, 0) := by
  have h := calc_stats_p95_index [3, 1, 2] [1, 2, 3] (by decide)
    (by decide) (by decide)
  simpa using h

/-- Auxiliary induction for the health gate: under a target that never
responds with the expected status, the polling loop raises at the first
poll tick at or beyond the timeout. -/
theorem healthGateLoop_never_go (T I : Nat) (hI : 0 < I) (resp : Nat → Bool)
    (hresp : ∀ n, resp n = false) :
    ∀ fuel k, T ≤ (k + fuel) * I → k * I < T + I →
      ∃ t, healthGateLoop T I resp fuel (k * I) = .error t ∧ T ≤ t ∧ t ≤ T + I := by
  intro fuel
  induction fuel with
  | zero =>
    intro k hk hb
    exact ⟨k * I, rfl, by simpa using hk, by omega⟩
  | succ n ih =>
    intro k hk hb
    by_cases ht : k * I < T
    · have harith : k * I + I = (k + 1) * I := by ring
      have hstep : healthGateLoop T I resp (n + 1) (k * I)
          = healthGateLoop T I resp n ((k + 1) * I) := by
        simp [healthGateLoop, ht, hresp, harith]
      rw [hstep]
      refine ih (k + 1) ?_ (by omega)
      have h2 : (k + 1 + n) * I = (k + (n + 1)) * I := by ring
      omega
    · exact ⟨k * I, by simp [healthGateLoop, ht], by omega, by omega⟩

/-- Auxiliary induction: sequential health-gated start-up tears down every
already-started service once the first gate fails. -/
theorem startServicesHealthGated_go (gateOk : String → Bool) (s : String)
    (post : List String) (hfail : gateOk s = false) :
    ∀ pre started, (∀ p ∈ pre, gateOk p = true) →
      startServicesHealthGated gateOk started (pre ++ s :: post)
        = { started := started ++ pre ++ [s], stopped := started ++ pre ++ [s],
            raised := true } := by
  intro pre
  induction pre with
  | nil =>
    intro started _
    simp [startServicesHealthGated, hfail]
  | cons a pre ih =>
    intro started hpre
    have ha : gateOk a = true := hpre a (List.mem_cons_self a pre)
    have hrec := ih (started ++ [a]) (fun p hp => hpre p (List.mem_cons_of_mem a hp))
    simp [startServicesHealthGated, ha, hrec, List.append_assoc]

/-- **C10** (modelled from the spec; no health-gate code exists under
`src/`): with overall timeout `T`, poll interval `I > 0` and a target
that never returns the expected status, the gate raises
`HealthCheckTimeout` at a time `t` with `T ≤ t ≤ T + I`; and the manager,
upon the first failing gate in its sequential start-up, stops exactly the
already-started services (the failing one included) before re-raising. -/
theorem health_gate_timeout_bounds (T I fuel : Nat) (resp : Nat → Bool)
    (gateOk : String → Bool) (pre post : List String) (s : String)
    (hI : 0 < I) (hfuel : T ≤ fuel * I) (hresp : ∀ n, resp n = false)
    (hfail : gateOk s = false) (hpre : ∀ p ∈ pre, gateOk p = true) :
    (∃ t, healthGateLoop T I resp fuel 0 = .error t ∧ T ≤ t ∧ t ≤ T + I) ∧
    startServicesHealthGated gateOk [] (pre ++ s :: post)
      = { started := pre ++ [s], stopped := pre ++ [s], raised := true } := by
  constructor
  · have h := healthGateLoop_never_go T I hI resp hresp fuel 0
      (by simpa using hfuel) (by simp [Nat.zero_mul]; omega)
    simpa using h
  · have h := startServicesHealthGated_go gateOk s post hfail pre [] hpre
    simpa using h

/-- Witness for the health-gate theorem at `T = 7`, `I = 3`, a target
that never responds, and a single service failing its gate. -/
theorem health_gate_timeout_bounds_witness :
    (∃ t, healthGateLoop 7 3 (fun _ => false) 3 0 = .error t ∧ 7 ≤ t ∧ t ≤ 7 + 3) ∧
    startServicesHealthGated (fun _ => false) [] (([] : List String) ++ "svc1" :: [])
      = { started := [] ++ ["svc1"], stopped := [] ++ ["svc1"], raised := true } :=
  health_gate_timeout_bounds 7 3 3 (fun _ => false) (fun _ => false) [] [] "svc1"
    (by decide) (by decide) (fun _ => rfl) rfl
    (fun p hp => absurd hp (List.not_mem_nil p))
